import Mathlib

/-!
Verification of the attendance-punch service in the `visualcheck` Django app.

Shallow embedding of the code in:
  - src/visualcheck/models.py        (Employee, Attendance)
  - src/visualcheck/views.py         (AnalyzeAttireView.post, AdminVerifyAttendanceView.post)
  - src/visualcheck/utils/s3_upload.py         (upload_bytes_to_s3, as an oracle)
  - src/visualcheck/services/visual_feedback_service.py (analyze_frames_aggregated)

External effects (S3 upload, the OpenAI chat call, PIL image validation,
json.loads, the clock) are modelled as oracle fields of environment records;
every pure step of the Python code is translated directly.
-/

namespace Attirebackend

/-! ### visual_feedback_service.py -/

/-- Abstract stand-in for a parsed JSON object as returned by `json.loads`. -/
structure FeedbackJson where
  payload : String
deriving Repr, DecidableEq

/-- Oracles for the external effects inside visual_feedback_service.py:
`validate` is the outcome of `_validate_and_resize_image` on one base64 string
(`Except.error` = the python exception path, `Except.ok` = the returned data URI);
`api` is the outcome of the OpenAI chat call on the list of validated images
(`Except.error e` = a raised exception whose `str` is `e`, `Except.ok t` = the
stripped response text); `jsonParse` is the outcome of `json.loads`
(`none` = `JSONDecodeError`). All three Python callees are deterministic in
their inputs within one request, so functions model them faithfully. -/
structure AIEnv where
  validate : String → Except String String
  api : List String → Except String String
  jsonParse : String → Option FeedbackJson

/-- The dictionaries `analyze_frames_aggregated` can return
(visual_feedback_service.py lines 82-98 and 202-227), one constructor per
dict shape. The python `status` field of each shape is `aiStatus` below. -/
inductive AIResult where
  | noFrames (message : String)
  | noValidImages (message : String)
  | transportError (message : String) (frames_received : Nat)
  | parseError (raw_analysis : String) (frames_analyzed : Nat)
  | success (feedback : FeedbackJson) (frames_analyzed : Nat) (candidate_name : Option String)
deriving Repr, DecidableEq

/-- The `status` key of each returned dict: `"no_frames"` (line 83),
`"error"` for the no-valid-images dict (line 98), `"success"` (line 204),
`"parse_error"` (line 213), `"error"` for the transport-failure dict (line 224). -/
def aiStatus : AIResult → String
  | .noFrames _ => "no_frames"
  | .noValidImages _ => "error"
  | .transportError _ _ => "error"
  | .parseError _ _ => "parse_error"
  | .success _ _ _ => "success"

/-- Python `str.strip()`: remove leading and trailing whitespace (space, tab,
newline, carriage return), written over the character list so it reduces by
computation. -/
def pyStrip (s : String) : String :=
  ⟨((s.data.dropWhile Char.isWhitespace).reverse.dropWhile Char.isWhitespace).reverse⟩

/-- The markdown-fence cleanup applied to the model response text
(visual_feedback_service.py lines 194-200): if the text starts with a fence,
drop the first and last lines (only when there are more than two lines), then
strip a leading `json` tag. -/
def cleanFences (text0 : String) : String :=
  if text0.startsWith "```" then
    let lines := text0.splitOn "\n"
    let text1 := if lines.length > 2 then String.intercalate "\n" ((lines.drop 1).dropLast) else text0
    if text1.startsWith "json" then pyStrip (text1.drop 4) else text1
  else text0

/-- analyze_frames_aggregated (visual_feedback_service.py lines 71-227).
The per-frame `try/except: continue` loop is `filterMap` over the validation
oracle; the outer `try/except` around the API call is the match on `env.api`.
The prompt text and the data-URI request building do not influence the shape
of the result and live behind the `api` oracle. -/
def analyze_frames_aggregated (env : AIEnv) (frames_b64 : List String)
    (candidate_name candidate_id : Option String) : AIResult :=
  if frames_b64.isEmpty then
    .noFrames "No frames provided"
  else
    let frames := frames_b64.take 5
    let valid_images := frames.filterMap (fun b64 => (env.validate b64).toOption)
    if valid_images.isEmpty then
      .noValidImages "No valid images to analyze"
    else
      match env.api valid_images with
      | .error e => .transportError ("Analysis failed: " ++ e.take 200) valid_images.length
      | .ok content =>
        let text := cleanFences (pyStrip content)
        match env.jsonParse text with
        | none => .parseError text valid_images.length
        | some feedback => .success feedback valid_images.length candidate_name

/-- analyze_attire_from_two_images (visual_feedback_service.py lines 230-242). -/
def analyze_attire_from_two_images (env : AIEnv) (upper_body_b64 full_body_b64 : String)
    (candidate_name candidate_id : Option String) : AIResult :=
  analyze_frames_aggregated env [upper_body_b64, full_body_b64] candidate_name candidate_id

/-- The images validated and kept by the loop of analyze_frames_aggregated
(lines 86-95), as a standalone function for use in theorem statements. -/
def validImagesOf (env : AIEnv) (frames_b64 : List String) : List String :=
  (frames_b64.take 5).filterMap (fun b64 => (env.validate b64).toOption)

/-! ### views.py helpers -/

/-- bytes_to_base64 (views.py lines 15-16): standard base64 of the raw bytes,
bytes represented as naturals below 256. -/
def base64Alphabet : List Char :=
  "ABCDEFGHIJKLMNOPQRSTUVWXYZabcdefghijklmnopqrstuvwxyz0123456789+/".toList

def b64Char (n : Nat) : Char := base64Alphabet.getD n '='

def bytes_to_base64 : List Nat → String
  | [] => ""
  | [b1] =>
    ⟨[b64Char ((b1 % 256) / 4), b64Char ((b1 % 4) * 16), '=', '=']⟩
  | [b1, b2] =>
    ⟨[b64Char ((b1 % 256) / 4), b64Char ((b1 % 4) * 16 + (b2 % 256) / 16),
      b64Char ((b2 % 16) * 4), '=']⟩
  | b1 :: b2 :: b3 :: rest =>
    (⟨[b64Char ((b1 % 256) / 4), b64Char ((b1 % 4) * 16 + (b2 % 256) / 16),
       b64Char ((b2 % 16) * 4 + (b3 % 256) / 64), b64Char (b3 % 64)]⟩ : String)
      ++ bytes_to_base64 rest

/-! ### models.py -/

/-- Employee (models.py lines 3-5): `employee_id` is declared `unique=True`. -/
structure Employee where
  employee_id : String
  name : String
deriving Repr, DecidableEq

/-- Attendance (models.py lines 37-59). `id` is the Django auto primary key;
`date`/`punch_time` are the auto_now_add values, modelled as abstract instants
(naturals); `ai_response` is the nullable JSONField holding the dict returned
by the feedback service; `verified_by`/`verified_at` are nullable. The status
strings are exactly the STATUS_CHOICES keys of models.py lines 50-55. -/
structure Attendance where
  id : Nat
  employee_id : String
  date : Nat
  punch_time : Nat
  upper_body_image_url : String
  full_body_image_url : String
  location_text : String
  ai_response : Option AIResult
  status : String
  verified_by : Option String
  verified_at : Option Nat
deriving Repr, DecidableEq

/-- The database: the Employee table, the Attendance table, and the next
auto-assigned Attendance primary key. -/
structure DB where
  employees : List Employee
  attendances : List Attendance
  next_id : Nat
deriving Repr, DecidableEq

/-- Declared table-level uniqueness constraints of the Attendance model:
models.py lines 37-59 declare fields and STATUS_CHOICES only — there is no
`Meta.constraints` / `unique_together`, so this list is empty. In particular
no (employee, date) uniqueness constraint exists at the storage level. -/
def attendanceModelConstraints : List (List String) := []

/-- The row-match predicate of the duplicate check
`Attendance.objects.filter(employee=employee, date=today)` (views.py line 70):
`employee_id` identifies the employee row uniquely (models.py line 4). -/
def punchMatches (eid : String) (d : Nat) (a : Attendance) : Bool :=
  a.employee_id == eid && a.date == d

/-- `Attendance.objects.filter(employee=..., date=...).exists()` (views.py line 70). -/
def attendanceExists (db : DB) (eid : String) (d : Nat) : Bool :=
  db.attendances.any (punchMatches eid d)

/-- Number of Attendance rows for one (employee, date) pair. -/
def punchCountL (l : List Attendance) (eid : String) (d : Nat) : Nat :=
  (l.filter (punchMatches eid d)).length

def punchCount (db : DB) (eid : String) (d : Nat) : Nat :=
  punchCountL db.attendances eid d

/-- Invariant I1 of the spec: at most one AttendancePunch per (employee, date). -/
def I1 (db : DB) : Prop := ∀ eid d, punchCount db eid d ≤ 1

/-- Well-formedness of the auto primary key: every stored row's id is below
the next id the store will assign. Holds for every database reachable from
the empty one. -/
def AttIdsFresh (db : DB) : Prop := ∀ a ∈ db.attendances, a.id < db.next_id

/-- `Employee.objects.get_or_create(employee_id=..., defaults=dict(name=...))`
(views.py lines 63-66): look the employee up by `employee_id` (unique,
models.py line 4); if absent, insert a row with the given name. -/
def get_or_create (db : DB) (eid nm : String) : Employee × DB :=
  match db.employees.find? (fun e => e.employee_id == eid) with
  | some e => (e, db)
  | none =>
    let e : Employee := { employee_id := eid, name := nm }
    (e, { db with employees := db.employees ++ [e] })

/-- `Attendance.objects.create(...)` (views.py lines 79-85): insert a fresh row
with the auto-assigned id, auto_now_add date/punch_time, null ai_response and
null verification fields. -/
def Attendance_objects_create (db : DB) (employee : Employee)
    (upper_url full_url loc status : String) (today now_ts : Nat) : Attendance × DB :=
  let att : Attendance :=
    { id := db.next_id, employee_id := employee.employee_id, date := today,
      punch_time := now_ts, upper_body_image_url := upper_url,
      full_body_image_url := full_url, location_text := loc,
      ai_response := none, status := status, verified_by := none, verified_at := none }
  (att, { db with attendances := db.attendances ++ [att], next_id := db.next_id + 1 })

/-- `attendance.save()` on an already-persisted row: replace the row with the
same primary key. -/
def saveAttendance (db : DB) (att : Attendance) : DB :=
  { db with attendances := db.attendances.map (fun a => if a.id == att.id then att else a) }

/-! ### views.py: AnalyzeAttireView.post -/

/-- A Django `UploadedFile` from `request.FILES`: its truthiness under `not f`
is `bool(f.name)` (django File.__bool__), its `read()` is `content`. -/
structure UploadedFile where
  name : String
  content : List Nat
  content_type : String
deriving Repr, DecidableEq

instance : Inhabited UploadedFile := ⟨⟨"", [], ""⟩⟩

/-- Truthiness of `request.FILES.get(...)`: `None` is falsy; an UploadedFile
is truthy iff its name is non-empty (django `File.__bool__ = bool(self.name)`). -/
def fileTruthy : Option UploadedFile → Bool
  | none => false
  | some f => f.name != ""

/-- The inbound multipart request of `POST /analyze-attire/` (views.py
lines 23-29): `request.FILES.get` and `request.POST.get` yield `none` for an
absent part. -/
structure PunchRequest where
  upper_body : Option UploadedFile
  full_body : Option UploadedFile
  employee_name : Option String
  employee_id : Option String
  location : Option String
  verify_type : Option String
deriving Repr, DecidableEq

/-- `request.POST.get("employee_name", "").strip()` (views.py line 26). -/
def reqEmployeeName (req : PunchRequest) : String := pyStrip (req.employee_name.getD "")

/-- `request.POST.get("employee_id", "").strip()` (views.py line 27). -/
def reqEmployeeId (req : PunchRequest) : String := pyStrip (req.employee_id.getD "")

/-- `request.POST.get("location", "").strip()` (views.py line 28). -/
def reqLocation (req : PunchRequest) : String := pyStrip (req.location.getD "")

/-- `request.POST.get("verify_type", "self")` (views.py line 29). -/
def reqVerifyType (req : PunchRequest) : String := req.verify_type.getD "self"

def reqUpperBytes (req : PunchRequest) : List Nat := (req.upper_body.getD default).content

def reqUpperCT (req : PunchRequest) : String := (req.upper_body.getD default).content_type

def reqFullBytes (req : PunchRequest) : List Nat := (req.full_body.getD default).content

def reqFullCT (req : PunchRequest) : String := (req.full_body.getD default).content_type

/-- The request environment of one call: the S3 upload oracle
(`upload bytes folder content_type` is the outcome of `upload_bytes_to_s3`,
s3_upload.py lines 13-32 — `Except.error` is a raised boto3 exception, which
the view does not catch; `Except.ok` is the returned public URL), the feedback
service oracles, and the values of `now().date()` / `now()` during the call. -/
structure Env where
  upload : List Nat → String → String → Except String String
  ai : AIEnv
  today : Nat
  now_ts : Nat

/-- The observable outcomes of AnalyzeAttireView.post:
`validationError msg` = `JsonResponse(dict(error=msg), status=400)` of lines 32-39;
`duplicateError` = the 400 response of lines 70-74 (message "Already punched today");
`storageException e` = an uncaught exception raised out of `upload_bytes_to_s3`
(Django turns it into a 500 server-error response);
`ok att` = the 200 response of lines 102-111 built from the saved row. -/
inductive PunchOutcome where
  | validationError (msg : String)
  | duplicateError
  | storageException (msg : String)
  | ok (attendance : Attendance)
deriving Repr, DecidableEq

/-- External calls a request makes, in order. -/
inductive ExtCall where
  | s3Upload (folder : String)
  | assessment
deriving Repr, DecidableEq

/-- AnalyzeAttireView.post (views.py lines 22-111), line by line:
validation (31-39), byte reads and base64 (41-47), the two uploads (49-60),
get_or_create (62-66), the duplicate check (68-74), status selection (76),
row creation (78-85), the self-verification branch (87-99). Returns the
outcome, the database after the call, and the external calls made. -/
def AnalyzeAttireView_post (env : Env) (db : DB) (req : PunchRequest) :
    PunchOutcome × DB × List ExtCall :=
  let upper_file := req.upper_body
  let full_file := req.full_body
  let employee_name := pyStrip (req.employee_name.getD "")
  let employee_id := pyStrip (req.employee_id.getD "")
  let location_text := pyStrip (req.location.getD "")
  let verify_type := req.verify_type.getD "self"
  if !fileTruthy upper_file || !fileTruthy full_file then
    (.validationError "Images required", db, [])
  else if employee_name == "" || employee_id == "" then
    (.validationError "Employee details required", db, [])
  else if location_text == "" then
    (.validationError "Location required", db, [])
  else
    let upper_bytes := (upper_file.getD default).content
    let full_bytes := (full_file.getD default).content
    let upper_b64 := bytes_to_base64 upper_bytes
    let full_b64 := bytes_to_base64 full_bytes
    match env.upload upper_bytes "attendance/upper" (upper_file.getD default).content_type with
    | .error e => (.storageException e, db, [.s3Upload "attendance/upper"])
    | .ok upper_body_url =>
      match env.upload full_bytes "attendance/full" (full_file.getD default).content_type with
      | .error e =>
        (.storageException e, db, [.s3Upload "attendance/upper", .s3Upload "attendance/full"])
      | .ok full_body_url =>
        let (employee, db1) := get_or_create db employee_id employee_name
        if attendanceExists db1 employee.employee_id env.today then
          (.duplicateError, db1, [.s3Upload "attendance/upper", .s3Upload "attendance/full"])
        else
          let status := if verify_type == "self" then "SELF_VERIFIED" else "PENDING_ADMIN"
          let (attendance, db2) := Attendance_objects_create db1 employee
            upper_body_url full_body_url location_text status env.today env.now_ts
          if verify_type == "self" then
            let ai_response := analyze_attire_from_two_images env.ai upper_b64 full_b64
              (some employee_name) (some employee_id)
            let att1 := { attendance with
              ai_response := some ai_response,
              verified_by := some "SELF",
              verified_at := some env.now_ts }
            (.ok att1, saveAttendance db2 att1,
              [.s3Upload "attendance/upper", .s3Upload "attendance/full", .assessment])
          else
            (.ok attendance, db2,
              [.s3Upload "attendance/upper", .s3Upload "attendance/full"])

/-- The three sequential validation checks of views.py lines 31-39, as a
single function: the message of the first failing check, else `none`. -/
def validationFailure (req : PunchRequest) : Option String :=
  if !fileTruthy req.upper_body || !fileTruthy req.full_body then
    some "Images required"
  else if reqEmployeeName req == "" || reqEmployeeId req == "" then
    some "Employee details required"
  else if reqLocation req == "" then
    some "Location required"
  else none

/-- HTTP status of each outcome: the explicit `status=400` JsonResponses, 200
for the final JsonResponse, and 500 for an exception the view does not catch
(Django's handler converts any uncaught exception into a server-error response). -/
def punchHttpStatus : PunchOutcome → Nat
  | .validationError _ => 400
  | .duplicateError => 400
  | .storageException _ => 500
  | .ok _ => 200

def isValidationError : PunchOutcome → Bool
  | .validationError _ => true
  | _ => false

/-! ### views.py: AdminVerifyAttendanceView.post -/

/-- The observable outcomes of AdminVerifyAttendanceView.post (views.py
lines 132-150): `notFoundException` = `Attendance.objects.get` raised
`Attendance.DoesNotExist`, which the view does not catch (Django turns it
into a 500 server-error response); `alreadyVerified` = the 400 response of
line 139; `ok status` = the 200 response of line 150. -/
inductive VerifyOutcome where
  | notFoundException
  | alreadyVerified
  | ok (status : String)
deriving Repr, DecidableEq

/-- AdminVerifyAttendanceView.post (views.py lines 132-150):
`action`/`admin_name` come from `request.POST.get` with no default (line 133-134,
`none` when absent); `Attendance.objects.get(id=...)` (line 136) raises when no
row matches; the status guard (line 138); the approve/reject branch (141-144);
the verification fields and save (146-148). -/
def AdminVerifyAttendanceView_post (now_ts : Nat) (db : DB) (attendance_id : Nat)
    (action admin_name : Option String) : VerifyOutcome × DB :=
  match db.attendances.find? (fun a => a.id == attendance_id) with
  | none => (.notFoundException, db)
  | some attendance =>
    if attendance.status != "PENDING_ADMIN" then
      (.alreadyVerified, db)
    else
      let newStatus := if action == some "approve" then "ADMIN_VERIFIED" else "REJECTED"
      let att1 := { attendance with
        status := newStatus, verified_by := admin_name, verified_at := some now_ts }
      (.ok newStatus, saveAttendance db att1)

/-- HTTP status of each verify outcome (uncaught `DoesNotExist` becomes a 500
server-error response in Django). -/
def verifyHttpStatus : VerifyOutcome → Nat
  | .notFoundException => 500
  | .alreadyVerified => 400
  | .ok _ => 200

/-- Client-error range of HTTP statuses. -/
def isClientErrorStatus (n : Nat) : Bool := 400 ≤ n && n < 500

/-! ### Basic lemmas about the database helpers -/

theorem get_or_create_next_id (db : DB) (eid nm : String) :
    ((get_or_create db eid nm).2).next_id = db.next_id := by
  unfold get_or_create
  cases h : db.employees.find? (fun e => e.employee_id == eid) <;> simp

theorem get_or_create_attendances (db : DB) (eid nm : String) :
    ((get_or_create db eid nm).2).attendances = db.attendances := by
  unfold get_or_create
  cases h : db.employees.find? (fun e => e.employee_id == eid) <;> simp

theorem get_or_create_employee_id (db : DB) (eid nm : String) :
    ((get_or_create db eid nm).1).employee_id = eid := by
  unfold get_or_create
  cases h : db.employees.find? (fun e => e.employee_id == eid) with
  | none => simp
  | some e => simpa using List.find?_some h

theorem validationFailure_none (req : PunchRequest) (h : validationFailure req = none) :
    (!fileTruthy req.upper_body || !fileTruthy req.full_body) = false ∧
    (reqEmployeeName req == "" || reqEmployeeId req == "") = false ∧
    (reqLocation req == "") = false := by
  unfold validationFailure at h
  split at h
  · simp_all
  · split at h
    · simp_all
    · split at h
      · simp_all
      · simp_all

/-! ### Path lemmas for AnalyzeAttireView.post -/

theorem post_validation_spec (env : Env) (db : DB) (req : PunchRequest) (msg : String)
    (h : validationFailure req = some msg) :
    AnalyzeAttireView_post env db req = (.validationError msg, db, []) := by
  unfold validationFailure at h
  unfold AnalyzeAttireView_post
  simp only [reqEmployeeName, reqEmployeeId, reqLocation] at h
  split at h
  · next hc => simp_all
  · next hc =>
    split at h
    · next hc2 => simp_all
    · next hc2 =>
      split at h
      · next hc3 => simp_all
      · simp_all

theorem post_storage_upper_spec (env : Env) (db : DB) (req : PunchRequest) (e : String)
    (hv : validationFailure req = none)
    (hu : env.upload (reqUpperBytes req) "attendance/upper" (reqUpperCT req) = .error e) :
    AnalyzeAttireView_post env db req =
      (.storageException e, db, [.s3Upload "attendance/upper"]) := by
  obtain ⟨h1, h2, h3⟩ := validationFailure_none req hv
  simp only [reqEmployeeName, reqEmployeeId, reqLocation] at h1 h2 h3
  simp only [reqUpperBytes, reqUpperCT] at hu
  unfold AnalyzeAttireView_post
  simp [h1, h2, h3, hu]

theorem post_storage_full_spec (env : Env) (db : DB) (req : PunchRequest) (uu e : String)
    (hv : validationFailure req = none)
    (hu : env.upload (reqUpperBytes req) "attendance/upper" (reqUpperCT req) = .ok uu)
    (hf : env.upload (reqFullBytes req) "attendance/full" (reqFullCT req) = .error e) :
    AnalyzeAttireView_post env db req =
      (.storageException e, db, [.s3Upload "attendance/upper", .s3Upload "attendance/full"]) := by
  obtain ⟨h1, h2, h3⟩ := validationFailure_none req hv
  simp only [reqEmployeeName, reqEmployeeId, reqLocation] at h1 h2 h3
  simp only [reqUpperBytes, reqUpperCT] at hu
  simp only [reqFullBytes, reqFullCT] at hf
  unfold AnalyzeAttireView_post
  simp [h1, h2, h3, hu, hf]

theorem post_duplicate_spec (env : Env) (db : DB) (req : PunchRequest) (uu fu : String)
    (hv : validationFailure req = none)
    (hu : env.upload (reqUpperBytes req) "attendance/upper" (reqUpperCT req) = .ok uu)
    (hf : env.upload (reqFullBytes req) "attendance/full" (reqFullCT req) = .ok fu)
    (hdup : attendanceExists db (reqEmployeeId req) env.today = true) :
    AnalyzeAttireView_post env db req =
      (.duplicateError, (get_or_create db (reqEmployeeId req) (reqEmployeeName req)).2,
        [.s3Upload "attendance/upper", .s3Upload "attendance/full"]) := by
  obtain ⟨h1, h2, h3⟩ := validationFailure_none req hv
  simp only [reqEmployeeName, reqEmployeeId, reqLocation] at h1 h2 h3
  simp only [reqUpperBytes, reqUpperCT] at hu
  simp only [reqFullBytes, reqFullCT] at hf
  have hdup' : attendanceExists
      (get_or_create db (reqEmployeeId req) (reqEmployeeName req)).2
      ((get_or_create db (reqEmployeeId req) (reqEmployeeName req)).1).employee_id
      env.today = true := by
    rw [get_or_create_employee_id]
    unfold attendanceExists
    rw [get_or_create_attendances]
    exact hdup
  simp only [reqEmployeeId, reqEmployeeName] at hdup'
  unfold AnalyzeAttireView_post
  simp [h1, h2, h3, hu, hf, reqEmployeeId, reqEmployeeName, hdup']

/-- The row inserted by `Attendance.objects.create` in views.py lines 79-85,
expressed in terms of the request: the employee resolved by get_or_create has
`employee_id = reqEmployeeId req` and the id counter is unchanged by
get_or_create. -/
def createdAttendance (env : Env) (db : DB) (req : PunchRequest) (uu fu status : String) :
    Attendance :=
  { id := db.next_id, employee_id := reqEmployeeId req, date := env.today,
    punch_time := env.now_ts, upper_body_image_url := uu, full_body_image_url := fu,
    location_text := reqLocation req, ai_response := none, status := status,
    verified_by := none, verified_at := none }

/-- The row as updated and saved by the self-verification branch
(views.py lines 87-99). -/
def selfAttendance (env : Env) (db : DB) (req : PunchRequest) (uu fu : String) : Attendance :=
  { createdAttendance env db req uu fu "SELF_VERIFIED" with
    ai_response := some (analyze_attire_from_two_images env.ai
      (bytes_to_base64 (reqUpperBytes req)) (bytes_to_base64 (reqFullBytes req))
      (some (reqEmployeeName req)) (some (reqEmployeeId req))),
    verified_by := some "SELF",
    verified_at := some env.now_ts }

theorem post_admin_spec (env : Env) (db : DB) (req : PunchRequest) (uu fu : String)
    (hv : validationFailure req = none)
    (hu : env.upload (reqUpperBytes req) "attendance/upper" (reqUpperCT req) = .ok uu)
    (hf : env.upload (reqFullBytes req) "attendance/full" (reqFullCT req) = .ok fu)
    (hdup : attendanceExists db (reqEmployeeId req) env.today = false)
    (hvt : reqVerifyType req ≠ "self") :
    AnalyzeAttireView_post env db req =
      (.ok (createdAttendance env db req uu fu "PENDING_ADMIN"),
       { employees := ((get_or_create db (reqEmployeeId req) (reqEmployeeName req)).2).employees,
         attendances := db.attendances ++ [createdAttendance env db req uu fu "PENDING_ADMIN"],
         next_id := db.next_id + 1 },
       [.s3Upload "attendance/upper", .s3Upload "attendance/full"]) := by
  obtain ⟨h1, h2, h3⟩ := validationFailure_none req hv
  simp only [reqEmployeeName, reqEmployeeId, reqLocation] at h1 h2 h3
  simp only [reqUpperBytes, reqUpperCT] at hu
  simp only [reqFullBytes, reqFullCT] at hf
  have hdup' : attendanceExists
      (get_or_create db (reqEmployeeId req) (reqEmployeeName req)).2
      (reqEmployeeId req) env.today = false := by
    unfold attendanceExists
    rw [get_or_create_attendances]
    exact hdup
  simp only [reqEmployeeId, reqEmployeeName] at hdup'
  have hvt' : (req.verify_type.getD "self" == "self") = false := by
    simpa [reqVerifyType] using hvt
  unfold AnalyzeAttireView_post Attendance_objects_create
  simp [h1, h2, h3, hu, hf, hdup', hvt', createdAttendance, reqEmployeeId, reqEmployeeName,
    reqLocation, get_or_create_employee_id, get_or_create_attendances, get_or_create_next_id]

theorem post_self_spec (env : Env) (db : DB) (req : PunchRequest) (uu fu : String)
    (hv : validationFailure req = none)
    (hu : env.upload (reqUpperBytes req) "attendance/upper" (reqUpperCT req) = .ok uu)
    (hf : env.upload (reqFullBytes req) "attendance/full" (reqFullCT req) = .ok fu)
    (hdup : attendanceExists db (reqEmployeeId req) env.today = false)
    (hvt : reqVerifyType req = "self") :
    AnalyzeAttireView_post env db req =
      (.ok (selfAttendance env db req uu fu),
       saveAttendance
         { employees := ((get_or_create db (reqEmployeeId req) (reqEmployeeName req)).2).employees,
           attendances := db.attendances ++ [createdAttendance env db req uu fu "SELF_VERIFIED"],
           next_id := db.next_id + 1 }
         (selfAttendance env db req uu fu),
       [.s3Upload "attendance/upper", .s3Upload "attendance/full", .assessment]) := by
  obtain ⟨h1, h2, h3⟩ := validationFailure_none req hv
  simp only [reqEmployeeName, reqEmployeeId, reqLocation] at h1 h2 h3
  simp only [reqUpperBytes, reqUpperCT] at hu
  simp only [reqFullBytes, reqFullCT] at hf
  have hdup' : attendanceExists
      (get_or_create db (reqEmployeeId req) (reqEmployeeName req)).2
      (reqEmployeeId req) env.today = false := by
    unfold attendanceExists
    rw [get_or_create_attendances]
    exact hdup
  simp only [reqEmployeeId, reqEmployeeName] at hdup'
  have hvt' : (req.verify_type.getD "self" == "self") = true := by
    simpa [reqVerifyType] using hvt
  unfold AnalyzeAttireView_post Attendance_objects_create
  simp [h1, h2, h3, hu, hf, hdup', hvt', createdAttendance, selfAttendance,
    analyze_attire_from_two_images, reqEmployeeId, reqEmployeeName, reqLocation,
    reqUpperBytes, reqFullBytes, get_or_create_employee_id, get_or_create_attendances,
    get_or_create_next_id]

/-- Saving an updated row whose id occurs only in the freshly appended row
replaces just that row. -/
theorem save_map_fresh (l : List Attendance) (att0 att1 : Attendance)
    (hid : att0.id = att1.id) (h : ∀ a ∈ l, a.id ≠ att1.id) :
    (l ++ [att0]).map (fun a => if a.id == att1.id then att1 else a) = l ++ [att1] := by
  rw [List.map_append]
  have h1 : l.map (fun a => if a.id == att1.id then att1 else a) = l := by
    induction l with
    | nil => rfl
    | cons x xs ih =>
      have hx : x.id ≠ att1.id := h x (by simp)
      simp only [List.map_cons]
      rw [if_neg (by simpa using hx)]
      rw [ih (fun a ha => h a (by simp [ha]))]
  rw [h1]
  simp [hid]

/-- On the self path with a well-formed id counter, the final database is the
old one plus exactly the one saved row. -/
theorem post_self_db_spec (env : Env) (db : DB) (req : PunchRequest) (uu fu : String)
    (hWF : AttIdsFresh db)
    (hv : validationFailure req = none)
    (hu : env.upload (reqUpperBytes req) "attendance/upper" (reqUpperCT req) = .ok uu)
    (hf : env.upload (reqFullBytes req) "attendance/full" (reqFullCT req) = .ok fu)
    (hdup : attendanceExists db (reqEmployeeId req) env.today = false)
    (hvt : reqVerifyType req = "self") :
    (AnalyzeAttireView_post env db req).2.1 =
      { employees := ((get_or_create db (reqEmployeeId req) (reqEmployeeName req)).2).employees,
        attendances := db.attendances ++ [selfAttendance env db req uu fu],
        next_id := db.next_id + 1 } := by
  rw [post_self_spec env db req uu fu hv hu hf hdup hvt]
  unfold saveAttendance
  simp only []
  congr 1
  apply save_map_fresh
  · rfl
  · intro a ha
    have := hWF a ha
    simp only [selfAttendance, createdAttendance]
    omega

/-- After a call that passes validation and both uploads, the employee table is
exactly the one produced by get_or_create; on every other path it is unchanged.
All branches after get_or_create leave `employees` untouched. -/
theorem post_employees_spec (env : Env) (db : DB) (req : PunchRequest) (uu fu : String)
    (hv : validationFailure req = none)
    (hu : env.upload (reqUpperBytes req) "attendance/upper" (reqUpperCT req) = .ok uu)
    (hf : env.upload (reqFullBytes req) "attendance/full" (reqFullCT req) = .ok fu) :
    (AnalyzeAttireView_post env db req).2.1.employees =
      ((get_or_create db (reqEmployeeId req) (reqEmployeeName req)).2).employees := by
  by_cases hdup : attendanceExists db (reqEmployeeId req) env.today = true
  · rw [post_duplicate_spec env db req uu fu hv hu hf hdup]
  · have hdup' : attendanceExists db (reqEmployeeId req) env.today = false := by
      simpa using hdup
    by_cases hvt : reqVerifyType req = "self"
    · rw [post_self_spec env db req uu fu hv hu hf hdup' hvt]
      simp [saveAttendance]
    · rw [post_admin_spec env db req uu fu hv hu hf hdup' hvt]

/-! ### Counting lemmas for invariant I1 -/

theorem punchCountL_append (l1 l2 : List Attendance) (eid : String) (d : Nat) :
    punchCountL (l1 ++ l2) eid d = punchCountL l1 eid d + punchCountL l2 eid d := by
  unfold punchCountL
  rw [List.filter_append, List.length_append]

theorem punchCountL_single (att : Attendance) (eid : String) (d : Nat) :
    punchCountL [att] eid d = if punchMatches eid d att then 1 else 0 := by
  unfold punchCountL
  by_cases h : punchMatches eid d att = true
  · simp [List.filter, h]
  · simp only [Bool.not_eq_true] at h
    simp [List.filter, h]

theorem attendanceExists_false_count (db : DB) (eid : String) (d : Nat)
    (h : attendanceExists db eid d = false) : punchCount db eid d = 0 := by
  unfold attendanceExists at h
  unfold punchCount punchCountL
  rw [List.length_eq_zero]
  rw [List.filter_eq_nil_iff]
  intro a ha
  rw [List.any_eq_false] at h
  simpa using h a ha

theorem I1_insert_row (emps : List Employee) (db : DB) (att : Attendance) (n : Nat)
    (hI : I1 db) (h0 : punchCount db att.employee_id att.date = 0) :
    I1 { employees := emps, attendances := db.attendances ++ [att], next_id := n } := by
  intro eid d
  unfold punchCount
  simp only
  rw [punchCountL_append, punchCountL_single]
  by_cases hm : punchMatches eid d att = true
  · obtain ⟨he, hd⟩ : att.employee_id = eid ∧ att.date = d := by
      unfold punchMatches at hm
      simp only [Bool.and_eq_true, beq_iff_eq] at hm
      exact hm
    rw [if_pos hm]
    have h0' : punchCountL db.attendances eid d = 0 := by
      unfold punchCount at h0
      rw [← he, ← hd]
      exact h0
    omega
  · rw [if_neg hm]
    have h1 := hI eid d
    unfold punchCount at h1
    omega

/-- Every call of AnalyzeAttireView.post preserves invariant I1: the only
branch that inserts a row is guarded by the duplicate check, and the save of
the self branch replaces the freshly inserted row in place. -/
theorem post_preserves_I1 (env : Env) (db : DB) (req : PunchRequest)
    (hWF : AttIdsFresh db) (hI : I1 db) : I1 (AnalyzeAttireView_post env db req).2.1 := by
  cases hv : validationFailure req with
  | some msg =>
    rw [post_validation_spec env db req msg hv]
    exact hI
  | none =>
    cases hu : env.upload (reqUpperBytes req) "attendance/upper" (reqUpperCT req) with
    | error e =>
      rw [post_storage_upper_spec env db req e hv hu]
      exact hI
    | ok uu =>
      cases hf : env.upload (reqFullBytes req) "attendance/full" (reqFullCT req) with
      | error e =>
        rw [post_storage_full_spec env db req uu e hv hu hf]
        exact hI
      | ok fu =>
        by_cases hdup : attendanceExists db (reqEmployeeId req) env.today = true
        · rw [post_duplicate_spec env db req uu fu hv hu hf hdup]
          intro eid d
          unfold punchCount
          rw [get_or_create_attendances]
          exact hI eid d
        · have hdup' : attendanceExists db (reqEmployeeId req) env.today = false := by
            simpa using hdup
          have h0 : punchCount db (reqEmployeeId req) env.today = 0 :=
            attendanceExists_false_count db _ _ hdup'
          by_cases hvt : reqVerifyType req = "self"
          · rw [post_self_db_spec env db req uu fu hWF hv hu hf hdup' hvt]
            exact I1_insert_row _ db _ _ hI (by simpa [selfAttendance, createdAttendance] using h0)
          · rw [post_admin_spec env db req uu fu hv hu hf hdup' hvt]
            exact I1_insert_row _ db _ _ hI (by simpa [createdAttendance] using h0)

/-! ### Concrete fixtures for witnesses and counterexamples -/

def emptyDB : DB := { employees := [], attendances := [], next_id := 0 }

/-- A self-verified row, as fixture. -/
def fixSelfAtt : Attendance :=
  { id := 0, employee_id := "E1", date := 0, punch_time := 0,
    upper_body_image_url := "https://b.s3.amazonaws.com/attendance/upper/x.jpg",
    full_body_image_url := "https://b.s3.amazonaws.com/attendance/full/x.jpg",
    location_text := "HQ-Lobby", ai_response := none,
    status := "SELF_VERIFIED", verified_by := some "SELF", verified_at := some 0 }

/-- An admin-pending row, as fixture. -/
def fixPendingAtt : Attendance :=
  { fixSelfAtt with status := "PENDING_ADMIN", verified_by := none, verified_at := none }

def fixDBSelf : DB :=
  { employees := [⟨"E1", "Alice"⟩], attendances := [fixSelfAtt], next_id := 1 }

def fixDBPending : DB :=
  { employees := [⟨"E1", "Alice"⟩], attendances := [fixPendingAtt], next_id := 1 }

/-! ### Claim C3 -/

/-- C3: a DecideVerification call on an existing punch whose current status is
not PENDING_ADMIN fails with the already-verified client error (400) and
returns the database unchanged, so status, verified_by and verified_at of
every row are untouched; the mutating branch that produces ADMIN_VERIFIED or
REJECTED is reachable only when the stored status is PENDING_ADMIN. -/
theorem adminVerify_already_verified (now_ts : Nat) (db : DB) (pid : Nat)
    (action admin_name : Option String) (att : Attendance)
    (hfind : db.attendances.find? (fun a => a.id == pid) = some att)
    (hst : att.status ≠ "PENDING_ADMIN") :
    AdminVerifyAttendanceView_post now_ts db pid action admin_name = (.alreadyVerified, db) := by
  unfold AdminVerifyAttendanceView_post
  rw [hfind]
  simp [hst]

/-- C3 witness: re-deciding an already self-verified punch fails and changes
nothing. -/
theorem adminVerify_already_verified_witness :
    AdminVerifyAttendanceView_post 5 fixDBSelf 0 (some "approve") (some "Mgr1")
      = (.alreadyVerified, fixDBSelf) :=
  adminVerify_already_verified 5 fixDBSelf 0 (some "approve") (some "Mgr1") fixSelfAtt
    (by decide) (by decide)

/-! ### Claim C10 -/

/-- C10: on a PENDING_ADMIN punch, every action value other than exactly
`some "approve"` — including a missing action — takes the reject branch: the
row is saved with status REJECTED, verified_by = admin_name and a set
verified_at, and the call returns 200 with the new status. No validation of
the action against an allowed set happens anywhere on this path. -/
theorem adminVerify_nonapprove_rejects (now_ts : Nat) (db : DB) (pid : Nat)
    (action admin_name : Option String) (att : Attendance)
    (hfind : db.attendances.find? (fun a => a.id == pid) = some att)
    (hst : att.status = "PENDING_ADMIN")
    (hact : action ≠ some "approve") :
    AdminVerifyAttendanceView_post now_ts db pid action admin_name =
      (.ok "REJECTED",
       saveAttendance db
         { att with status := "REJECTED", verified_by := admin_name,
                    verified_at := some now_ts }) := by
  unfold AdminVerifyAttendanceView_post
  rw [hfind]
  have h2 : (action == some "approve") = false := by
    cases h : action == some "approve"
    · rfl
    · exact absurd (by simpa using h) hact
  simp [hst, h2]

/-- C10 witness: a missing action on a pending punch rejects it and stamps the
verification fields. -/
theorem adminVerify_nonapprove_rejects_witness :
    AdminVerifyAttendanceView_post 9 fixDBPending 0 none (some "Mgr1") =
      (.ok "REJECTED",
       saveAttendance fixDBPending
         { fixPendingAtt with status := "REJECTED", verified_by := some "Mgr1",
                              verified_at := some 9 }) :=
  adminVerify_nonapprove_rejects 9 fixDBPending 0 none (some "Mgr1") fixPendingAtt
    (by decide) (by decide) (by decide)

/-! ### Claim C4 -/

/-- C4 counterexample: with no punch of id 7 in the store, DecideVerification
does not produce a client-error response with a machine-readable reason — the
`Attendance.objects.get` call raises an uncaught `DoesNotExist`, which Django
surfaces as a 500 server-error response, contradicting the claim that a
NotFoundError is mapped to a client error. -/
theorem adminVerify_not_found_counterexample :
    (AdminVerifyAttendanceView_post 0 emptyDB 7 (some "approve") (some "Mgr1")).1
        = .notFoundException ∧
    isClientErrorStatus (verifyHttpStatus
      (AdminVerifyAttendanceView_post 0 emptyDB 7 (some "approve") (some "Mgr1")).1) = false :=
  ⟨rfl, rfl⟩

/-- C4 amended: a DecideVerification call whose punchId matches no row fails
with an unhandled not-found exception — surfaced as a 500 server-error
response, not a client-error response — and leaves the database unchanged. -/
theorem adminVerify_not_found (now_ts : Nat) (db : DB) (pid : Nat)
    (action admin_name : Option String)
    (hfind : db.attendances.find? (fun a => a.id == pid) = none) :
    AdminVerifyAttendanceView_post now_ts db pid action admin_name = (.notFoundException, db) ∧
    verifyHttpStatus (AdminVerifyAttendanceView_post now_ts db pid action admin_name).1 = 500 := by
  unfold AdminVerifyAttendanceView_post
  rw [hfind]
  exact ⟨rfl, rfl⟩

/-- C4 witness: deciding an id that is absent from a non-empty store raises
the not-found exception and leaves the store unchanged. -/
theorem adminVerify_not_found_witness :
    AdminVerifyAttendanceView_post 3 fixDBSelf 42 none none = (.notFoundException, fixDBSelf) ∧
    verifyHttpStatus (AdminVerifyAttendanceView_post 3 fixDBSelf 42 none none).1 = 500 :=
  adminVerify_not_found 3 fixDBSelf 42 none none (by decide)

/-- A fully successful environment: both uploads return URLs, the AI validate
oracle accepts every frame, the chat call returns a text that fails JSON
parsing (a typed assessment failure, exercising the non-fatal path). -/
def fixEnv : Env :=
  { upload := fun _ _ _ => .ok "https://b.s3.amazonaws.com/attendance/u.jpg",
    ai := { validate := fun s => .ok s,
            api := fun _ => .ok "not json",
            jsonParse := fun _ => none },
    today := 0, now_ts := 7 }

/-- A well-formed punch request for employee E1. -/
def fixReq : PunchRequest :=
  { upper_body := some ⟨"upper.jpg", [1, 2, 3], "image/jpeg"⟩,
    full_body := some ⟨"full.jpg", [4, 5], "image/jpeg"⟩,
    employee_name := some "Alice", employee_id := some "E1",
    location := some "HQ-Lobby", verify_type := some "self" }

theorem I1_of_short (db : DB) (h : db.attendances.length ≤ 1) : I1 db := by
  intro eid d
  unfold punchCount punchCountL
  exact le_trans (List.length_filter_le _ _) h

/-! ### Claim C1 -/

/-- C1: AnalyzeAttireView.post preserves invariant I1 (at most one punch row
per employee and date) on every input; and whenever a punch for
(employee, today) already exists, a call that passes validation and both
uploads fails with the 400 duplicate error ("Already punched today") and
leaves the punch table unchanged. `AttIdsFresh` is the auto-primary-key
well-formedness every reachable store satisfies. -/
theorem recordPunch_one_per_day (env : Env) (db : DB) (req : PunchRequest) (uu fu : String)
    (hWF : AttIdsFresh db) (hI : I1 db) :
    I1 (AnalyzeAttireView_post env db req).2.1 ∧
    (validationFailure req = none →
     env.upload (reqUpperBytes req) "attendance/upper" (reqUpperCT req) = .ok uu →
     env.upload (reqFullBytes req) "attendance/full" (reqFullCT req) = .ok fu →
     attendanceExists db (reqEmployeeId req) env.today = true →
       (AnalyzeAttireView_post env db req).1 = .duplicateError ∧
       punchHttpStatus (AnalyzeAttireView_post env db req).1 = 400 ∧
       (AnalyzeAttireView_post env db req).2.1.attendances = db.attendances) := by
  refine ⟨post_preserves_I1 env db req hWF hI, fun hv hu hf hdup => ?_⟩
  rw [post_duplicate_spec env db req uu fu hv hu hf hdup]
  exact ⟨rfl, rfl, get_or_create_attendances db _ _⟩

/-- C1 witness: a second same-day punch for E1 against a store already holding
one is rejected as a duplicate and writes nothing. -/
theorem recordPunch_one_per_day_witness :
    I1 (AnalyzeAttireView_post fixEnv fixDBSelf fixReq).2.1 ∧
    (AnalyzeAttireView_post fixEnv fixDBSelf fixReq).1 = .duplicateError ∧
    punchHttpStatus (AnalyzeAttireView_post fixEnv fixDBSelf fixReq).1 = 400 ∧
    (AnalyzeAttireView_post fixEnv fixDBSelf fixReq).2.1.attendances = fixDBSelf.attendances := by
  have h := recordPunch_one_per_day fixEnv fixDBSelf fixReq
    "https://b.s3.amazonaws.com/attendance/u.jpg" "https://b.s3.amazonaws.com/attendance/u.jpg"
    (by intro a ha; simp only [fixDBSelf, List.mem_singleton] at ha; subst ha; decide)
    (I1_of_short fixDBSelf (by decide))
  exact ⟨h.1, h.2 (by decide) rfl rfl (by decide)⟩

/-! ### Claim C2 -/

/-- C2: a RecordPunch call with verify_type resolving to "self" that passes
validation, both uploads and the duplicate check returns the persisted punch
with status SELF_VERIFIED, verified_by = "SELF", a set verified_at, and the
feedback-service return value (whatever shape — the statement is universally
quantified over `env.ai`, so it covers structured success and every typed
failure alike) stored in ai_response; the row is appended to the punch table
and is never rolled back on an assessment failure. -/
theorem recordPunch_self_verified (env : Env) (db : DB) (req : PunchRequest) (uu fu : String)
    (hWF : AttIdsFresh db)
    (hv : validationFailure req = none)
    (hself : reqVerifyType req = "self")
    (hu : env.upload (reqUpperBytes req) "attendance/upper" (reqUpperCT req) = .ok uu)
    (hf : env.upload (reqFullBytes req) "attendance/full" (reqFullCT req) = .ok fu)
    (hdup : attendanceExists db (reqEmployeeId req) env.today = false) :
    (AnalyzeAttireView_post env db req).1 = .ok (selfAttendance env db req uu fu) ∧
    (AnalyzeAttireView_post env db req).2.1.attendances
        = db.attendances ++ [selfAttendance env db req uu fu] ∧
    (selfAttendance env db req uu fu).status = "SELF_VERIFIED" ∧
    (selfAttendance env db req uu fu).verified_by = some "SELF" ∧
    (selfAttendance env db req uu fu).verified_at = some env.now_ts ∧
    (selfAttendance env db req uu fu).ai_response
        = some (analyze_attire_from_two_images env.ai
            (bytes_to_base64 (reqUpperBytes req)) (bytes_to_base64 (reqFullBytes req))
            (some (reqEmployeeName req)) (some (reqEmployeeId req))) := by
  refine ⟨?_, ?_, rfl, rfl, rfl, rfl⟩
  · rw [post_self_spec env db req uu fu hv hu hf hdup hself]
  · rw [post_self_db_spec env db req uu fu hWF hv hu hf hdup hself]

/-- C2 witness: a self punch into an empty store succeeds, persists the row,
and stores the (here failure-shaped) assessment payload with the SELF stamp. -/
theorem recordPunch_self_verified_witness :
    (AnalyzeAttireView_post fixEnv emptyDB fixReq).1
        = .ok (selfAttendance fixEnv emptyDB fixReq
            "https://b.s3.amazonaws.com/attendance/u.jpg"
            "https://b.s3.amazonaws.com/attendance/u.jpg") ∧
    (AnalyzeAttireView_post fixEnv emptyDB fixReq).2.1.attendances
        = emptyDB.attendances ++ [selfAttendance fixEnv emptyDB fixReq
            "https://b.s3.amazonaws.com/attendance/u.jpg"
            "https://b.s3.amazonaws.com/attendance/u.jpg"] ∧
    (selfAttendance fixEnv emptyDB fixReq
        "https://b.s3.amazonaws.com/attendance/u.jpg"
        "https://b.s3.amazonaws.com/attendance/u.jpg").status = "SELF_VERIFIED" ∧
    (selfAttendance fixEnv emptyDB fixReq
        "https://b.s3.amazonaws.com/attendance/u.jpg"
        "https://b.s3.amazonaws.com/attendance/u.jpg").verified_by = some "SELF" ∧
    (selfAttendance fixEnv emptyDB fixReq
        "https://b.s3.amazonaws.com/attendance/u.jpg"
        "https://b.s3.amazonaws.com/attendance/u.jpg").verified_at = some fixEnv.now_ts ∧
    (selfAttendance fixEnv emptyDB fixReq
        "https://b.s3.amazonaws.com/attendance/u.jpg"
        "https://b.s3.amazonaws.com/attendance/u.jpg").ai_response
        = some (analyze_attire_from_two_images fixEnv.ai
            (bytes_to_base64 (reqUpperBytes fixReq)) (bytes_to_base64 (reqFullBytes fixReq))
            (some (reqEmployeeName fixReq)) (some (reqEmployeeId fixReq))) :=
  recordPunch_self_verified fixEnv emptyDB fixReq
    "https://b.s3.amazonaws.com/attendance/u.jpg" "https://b.s3.amazonaws.com/attendance/u.jpg"
    (by intro a ha; simp [emptyDB] at ha)
    (by decide) (by decide) rfl rfl (by decide)

/-! ### Claim C6 -/

/-- C6: if the upload of either image raises, the whole operation fails with
that storage failure — surfaced as a 500 server error — before any ledger row
is written: the database is returned entirely unchanged and the only external
calls made were the upload attempts themselves (no row with a missing image
URL can exist, as `Attendance.objects.create` runs only after both uploads
returned URLs). -/
theorem recordPunch_no_partial_writes (env : Env) (db : DB) (req : PunchRequest)
    (e uu : String) (hv : validationFailure req = none) :
    (env.upload (reqUpperBytes req) "attendance/upper" (reqUpperCT req) = .error e →
      AnalyzeAttireView_post env db req
          = (.storageException e, db, [.s3Upload "attendance/upper"]) ∧
      punchHttpStatus (AnalyzeAttireView_post env db req).1 = 500) ∧
    (env.upload (reqUpperBytes req) "attendance/upper" (reqUpperCT req) = .ok uu →
     env.upload (reqFullBytes req) "attendance/full" (reqFullCT req) = .error e →
      AnalyzeAttireView_post env db req
          = (.storageException e, db,
             [.s3Upload "attendance/upper", .s3Upload "attendance/full"]) ∧
      punchHttpStatus (AnalyzeAttireView_post env db req).1 = 500) := by
  constructor
  · intro hu
    rw [post_storage_upper_spec env db req e hv hu]
    exact ⟨rfl, rfl⟩
  · intro hu hf
    rw [post_storage_full_spec env db req uu e hv hu hf]
    exact ⟨rfl, rfl⟩

/-- An environment whose S3 gateway raises on the first (upper) upload. -/
def fixEnvFail : Env :=
  { upload := fun _ folder _ =>
      if folder == "attendance/upper" then .error "S3UploadFailedError" else .ok "https://x",
    ai := fixEnv.ai, today := 0, now_ts := 7 }

/-- C6 witness: a failing upper-body upload aborts the call with the storage
exception, a 500, no database change, and no further external call. -/
theorem recordPunch_no_partial_writes_witness :
    AnalyzeAttireView_post fixEnvFail emptyDB fixReq
        = (.storageException "S3UploadFailedError", emptyDB, [.s3Upload "attendance/upper"]) ∧
    punchHttpStatus (AnalyzeAttireView_post fixEnvFail emptyDB fixReq).1 = 500 :=
  (recordPunch_no_partial_writes fixEnvFail emptyDB fixReq "S3UploadFailedError" "unused"
    (by decide)).1 rfl

/-! ### Claim C7 -/

/-- A request whose two image parts are present (named files) but carry empty
byte payloads, with all text fields well-formed. -/
def blankImageReq : PunchRequest :=
  { upper_body := some ⟨"upper.jpg", [], "image/jpeg"⟩,
    full_body := some ⟨"full.jpg", [], "image/jpeg"⟩,
    employee_name := some "Alice", employee_id := some "E1",
    location := some "HQ-Lobby", verify_type := some "admin" }

/-- C7 counterexample: a request whose image payloads are blank (present named
file parts with empty content) is NOT rejected with a ValidationError — the
view's `not upper_file` test is Django file truthiness, which tests the
filename, not the payload — and the call proceeds to create a punch row. -/
theorem recordPunch_blank_image_counterexample :
    isValidationError (AnalyzeAttireView_post fixEnv emptyDB blankImageReq).1 = false ∧
    (AnalyzeAttireView_post fixEnv emptyDB blankImageReq).2.1.attendances.length = 1 :=
  ⟨rfl, rfl⟩

/-- C7 amended: if either image part is absent (or falsy, i.e. unnamed), or
employee name, employee id or location is absent or blank after trimming, the
call fails with the 400 ValidationError whose message names the first missing
field group, makes no external call (no upload, no assessment), and leaves
the database unchanged. An image part that is present but has an empty
payload is not rejected. -/
theorem recordPunch_validation_fail_fast (env : Env) (db : DB) (req : PunchRequest)
    (msg : String) (h : validationFailure req = some msg) :
    AnalyzeAttireView_post env db req = (.validationError msg, db, []) ∧
    punchHttpStatus (AnalyzeAttireView_post env db req).1 = 400 := by
  rw [post_validation_spec env db req msg h]
  exact ⟨rfl, rfl⟩

/-- A request with both image parts absent. -/
def noImagesReq : PunchRequest :=
  { upper_body := none, full_body := none,
    employee_name := some "Alice", employee_id := some "E1",
    location := some "HQ-Lobby", verify_type := none }

/-- C7 witness: a request without images fails fast with the images message,
no external call and no database change. -/
theorem recordPunch_validation_fail_fast_witness :
    AnalyzeAttireView_post fixEnv fixDBSelf noImagesReq
        = (.validationError "Images required", fixDBSelf, []) ∧
    punchHttpStatus (AnalyzeAttireView_post fixEnv fixDBSelf noImagesReq).1 = 400 :=
  recordPunch_validation_fail_fast fixEnv fixDBSelf noImagesReq "Images required" (by decide)

/-! ### Claim C8 -/

/-- An AI environment whose chat call raises. -/
def fixAIFail : AIEnv :=
  { validate := fun s => .ok s,
    api := fun _ => .error "connection reset",
    jsonParse := fun _ => none }

/-- C8: the feedback call is total over its oracles — the try/except structure
of analyze_frames_aggregated lets no exception escape to the caller — and the
result is exactly one of the five dict shapes, characterized per oracle
outcome: the structured success, no_frames, the no-valid-images failure,
parse_error carrying the fence-cleaned raw model text, or the transport
failure carrying "Analysis failed: " plus the exception text truncated to 200
characters (the spec's no_valid_images / transport_error names are the code's
two status="error" dict shapes). Moreover an assessment failure is never an
operation failure of the punch: with any `penv.ai` whatsoever, a self punch
that passed validation, uploads and the duplicate check returns 200 with the
persisted row. -/
theorem assessment_gateway_total (env : AIEnv) (frames : List String)
    (nm cid : Option String) (e raw : String) (fb : FeedbackJson)
    (penv : Env) (db : DB) (req : PunchRequest) (uu fu : String) :
    (frames = [] → analyze_frames_aggregated env frames nm cid
        = .noFrames "No frames provided") ∧
    (frames ≠ [] → validImagesOf env frames = [] →
      analyze_frames_aggregated env frames nm cid
        = .noValidImages "No valid images to analyze") ∧
    (frames ≠ [] → env.api (validImagesOf env frames) = .error e →
      validImagesOf env frames ≠ [] →
      analyze_frames_aggregated env frames nm cid
        = .transportError ("Analysis failed: " ++ e.take 200)
            (validImagesOf env frames).length) ∧
    (frames ≠ [] → env.api (validImagesOf env frames) = .ok raw →
      validImagesOf env frames ≠ [] →
      env.jsonParse (cleanFences (pyStrip raw)) = none →
      analyze_frames_aggregated env frames nm cid
        = .parseError (cleanFences (pyStrip raw)) (validImagesOf env frames).length) ∧
    (frames ≠ [] → env.api (validImagesOf env frames) = .ok raw →
      validImagesOf env frames ≠ [] →
      env.jsonParse (cleanFences (pyStrip raw)) = some fb →
      analyze_frames_aggregated env frames nm cid
        = .success fb (validImagesOf env frames).length nm) ∧
    (validationFailure req = none → reqVerifyType req = "self" →
      penv.upload (reqUpperBytes req) "attendance/upper" (reqUpperCT req) = .ok uu →
      penv.upload (reqFullBytes req) "attendance/full" (reqFullCT req) = .ok fu →
      attendanceExists db (reqEmployeeId req) penv.today = false →
      (AnalyzeAttireView_post penv db req).1 = .ok (selfAttendance penv db req uu fu) ∧
      punchHttpStatus (AnalyzeAttireView_post penv db req).1 = 200) := by
  refine ⟨?_, ?_, ?_, ?_, ?_, ?_⟩
  · intro h
    subst h
    rfl
  · intro h1 h2
    have h1' : frames.isEmpty = false := by simpa [List.isEmpty_iff] using h1
    have h2' : (frames.take 5).filterMap (fun b64 => (env.validate b64).toOption) = [] := by
      simpa [validImagesOf] using h2
    unfold analyze_frames_aggregated
    simp [h1', h2']
  · intro h1 hapi h3
    have h1' : frames.isEmpty = false := by simpa [List.isEmpty_iff] using h1
    have h3' : ((frames.take 5).filterMap
        (fun b64 => (env.validate b64).toOption)).isEmpty = false := by
      simpa [validImagesOf, List.isEmpty_iff] using h3
    have hapi' : env.api ((frames.take 5).filterMap
        (fun b64 => (env.validate b64).toOption)) = .error e := by
      simpa [validImagesOf] using hapi
    unfold analyze_frames_aggregated
    simp [h1', h3', hapi', validImagesOf]
  · intro h1 hapi h3 hjson
    have h1' : frames.isEmpty = false := by simpa [List.isEmpty_iff] using h1
    have h3' : ((frames.take 5).filterMap
        (fun b64 => (env.validate b64).toOption)).isEmpty = false := by
      simpa [validImagesOf, List.isEmpty_iff] using h3
    have hapi' : env.api ((frames.take 5).filterMap
        (fun b64 => (env.validate b64).toOption)) = .ok raw := by
      simpa [validImagesOf] using hapi
    unfold analyze_frames_aggregated
    simp [h1', h3', hapi', hjson, validImagesOf]
  · intro h1 hapi h3 hjson
    have h1' : frames.isEmpty = false := by simpa [List.isEmpty_iff] using h1
    have h3' : ((frames.take 5).filterMap
        (fun b64 => (env.validate b64).toOption)).isEmpty = false := by
      simpa [validImagesOf, List.isEmpty_iff] using h3
    have hapi' : env.api ((frames.take 5).filterMap
        (fun b64 => (env.validate b64).toOption)) = .ok raw := by
      simpa [validImagesOf] using hapi
    unfold analyze_frames_aggregated
    simp [h1', h3', hapi', hjson, validImagesOf]
  · intro hv hself hu hf hdup
    constructor
    · rw [post_self_spec penv db req uu fu hv hu hf hdup hself]
    · rw [post_self_spec penv db req uu fu hv hu hf hdup hself]
      rfl

/-- C8 witness: with a raising chat call and two valid frames, the result is
the transport-failure dict with the truncated message. -/
theorem assessment_gateway_total_witness :
    analyze_frames_aggregated fixAIFail ["a", "b"] (some "Alice") (some "E1")
      = .transportError ("Analysis failed: " ++ "connection reset".take 200)
          (validImagesOf fixAIFail ["a", "b"]).length :=
  ((assessment_gateway_total fixAIFail ["a", "b"] (some "Alice") (some "E1")
      "connection reset" "" ⟨""⟩ fixEnv emptyDB fixReq "u" "f").2.2.1)
    (by decide) rfl (by decide)

/-! ### Claim C9 -/

def raceEmployee : Employee := ⟨"E1", "Alice"⟩

/-- The store both concurrent sessions start from: employee E1, no punches. -/
def raceDB0 : DB := { employees := [raceEmployee], attendances := [], next_id := 0 }

/-- Store after session A's insert (views.py lines 79-85). -/
def raceDB1 : DB :=
  (Attendance_objects_create raceDB0 raceEmployee "uA" "fA" "HQ-Lobby" "PENDING_ADMIN" 0 0).2

/-- Store after session B's insert, which in the racing interleaving runs
after both duplicate checks already passed against `raceDB0`. -/
def raceDB2 : DB :=
  (Attendance_objects_create raceDB1 raceEmployee "uB" "fB" "HQ-Lobby" "PENDING_ADMIN" 0 1).2

/-- C9: the code's uniqueness enforcement is an application-level
check-then-insert, not a transactional unit backed by a storage constraint:
the Attendance model declares no (employee, date) uniqueness constraint, and
in the interleaving where both sessions evaluate the views.py line 70
duplicate check against the pre-insert store (both observing `false`) and then
both perform the line 79 insert, the final store holds two punch rows for
("E1", day 0): I1 is violated and neither call observed the duplicate. -/
theorem punch_uniqueness_race :
    attendanceModelConstraints = [] ∧
    attendanceExists raceDB0 "E1" 0 = false ∧
    punchCount raceDB2 "E1" 0 = 2 ∧
    ¬ I1 raceDB2 := by
  refine ⟨rfl, rfl, rfl, fun h => ?_⟩
  have h2 := h "E1" 0
  have h3 : punchCount raceDB2 "E1" 0 = 2 := rfl
  omega

/-! ### Claim C5 -/

theorem find?_append_of_none {α : Type} (p : α → Bool) (l1 l2 : List α)
    (h : l1.find? p = none) : (l1 ++ l2).find? p = l2.find? p := by
  induction l1 with
  | nil => rfl
  | cons x xs ih =>
    cases hx : p x with
    | true =>
      rw [List.find?_cons_of_pos _ hx] at h
      cases h
    | false =>
      rw [List.find?_cons_of_neg _ (by simp [hx])] at h
      rw [List.cons_append, List.find?_cons_of_neg _ (by simp [hx])]
      exact ih h

theorem get_or_create_absent (db : DB) (eid nm : String)
    (h : db.employees.find? (fun e => e.employee_id == eid) = none) :
    ((get_or_create db eid nm).2).employees
      = db.employees ++ [{ employee_id := eid, name := nm }] := by
  unfold get_or_create
  rw [h]

theorem get_or_create_found (db : DB) (eid nm : String) (emp : Employee)
    (h : db.employees.find? (fun e => e.employee_id == eid) = some emp) :
    (get_or_create db eid nm).2 = db := by
  unfold get_or_create
  rw [h]

/-- C5: employee creation is idempotent with first-write-wins on the name.
Starting from a store without the employee, two RecordPunch calls with the
same employeeId — regardless of the second call's employeeName, and whether or
not the second call later fails the duplicate check — leave exactly one
Employee row for that id, and its stored name is the first call's name. -/
theorem employee_first_write_wins (env1 env2 : Env) (db : DB) (req1 req2 : PunchRequest)
    (u1 f1 u2 f2 : String)
    (hv1 : validationFailure req1 = none)
    (hu1 : env1.upload (reqUpperBytes req1) "attendance/upper" (reqUpperCT req1) = .ok u1)
    (hf1 : env1.upload (reqFullBytes req1) "attendance/full" (reqFullCT req1) = .ok f1)
    (hv2 : validationFailure req2 = none)
    (hu2 : env2.upload (reqUpperBytes req2) "attendance/upper" (reqUpperCT req2) = .ok u2)
    (hf2 : env2.upload (reqFullBytes req2) "attendance/full" (reqFullCT req2) = .ok f2)
    (heid : reqEmployeeId req2 = reqEmployeeId req1)
    (habs : db.employees.find? (fun e => e.employee_id == reqEmployeeId req1) = none) :
    ((AnalyzeAttireView_post env2
        (AnalyzeAttireView_post env1 db req1).2.1 req2).2.1.employees.filter
          (fun e => e.employee_id == reqEmployeeId req1)).length = 1 ∧
    (AnalyzeAttireView_post env2
        (AnalyzeAttireView_post env1 db req1).2.1 req2).2.1.employees.find?
          (fun e => e.employee_id == reqEmployeeId req1)
      = some { employee_id := reqEmployeeId req1, name := reqEmployeeName req1 } := by
  have hrow : (fun e : Employee => e.employee_id == reqEmployeeId req1)
      { employee_id := reqEmployeeId req1, name := reqEmployeeName req1 } = true := by
    simp
  have h1 : (AnalyzeAttireView_post env1 db req1).2.1.employees
      = db.employees ++ [{ employee_id := reqEmployeeId req1, name := reqEmployeeName req1 }] := by
    rw [post_employees_spec env1 db req1 u1 f1 hv1 hu1 hf1]
    exact get_or_create_absent db _ _ habs
  have hfind1 : (AnalyzeAttireView_post env1 db req1).2.1.employees.find?
      (fun e => e.employee_id == reqEmployeeId req2)
      = some { employee_id := reqEmployeeId req1, name := reqEmployeeName req1 } := by
    rw [h1, heid, find?_append_of_none _ _ _ habs]
    simp [List.find?, hrow]
  have h2 : (AnalyzeAttireView_post env2
      (AnalyzeAttireView_post env1 db req1).2.1 req2).2.1.employees
      = (AnalyzeAttireView_post env1 db req1).2.1.employees := by
    rw [post_employees_spec env2 _ req2 u2 f2 hv2 hu2 hf2]
    rw [get_or_create_found _ _ _ _ hfind1]
  rw [h2, h1]
  constructor
  · rw [List.filter_append]
    have hfilter0 : db.employees.filter (fun e => e.employee_id == reqEmployeeId req1) = [] := by
      rw [List.filter_eq_nil_iff]
      intro a ha
      have hna := List.find?_eq_none.mp habs a ha
      simpa using hna
    rw [hfilter0]
    simp [hrow]
  · rw [find?_append_of_none _ _ _ habs]
    simp [List.find?, hrow]

/-- The same punch request with a different display name. -/
def fixReq2 : PunchRequest := { fixReq with employee_name := some "Bob" }

/-- C5 witness: punching twice for E1 with names Alice then Bob leaves one
employee row named Alice. -/
theorem employee_first_write_wins_witness :
    ((AnalyzeAttireView_post fixEnv
        (AnalyzeAttireView_post fixEnv emptyDB fixReq).2.1 fixReq2).2.1.employees.filter
          (fun e => e.employee_id == reqEmployeeId fixReq)).length = 1 ∧
    (AnalyzeAttireView_post fixEnv
        (AnalyzeAttireView_post fixEnv emptyDB fixReq).2.1 fixReq2).2.1.employees.find?
          (fun e => e.employee_id == reqEmployeeId fixReq)
      = some { employee_id := reqEmployeeId fixReq, name := reqEmployeeName fixReq } :=
  employee_first_write_wins fixEnv fixEnv emptyDB fixReq fixReq2
    "https://b.s3.amazonaws.com/attendance/u.jpg" "https://b.s3.amazonaws.com/attendance/u.jpg"
    "https://b.s3.amazonaws.com/attendance/u.jpg" "https://b.s3.amazonaws.com/attendance/u.jpg"
    (by decide) rfl rfl (by decide) rfl rfl (by decide) (by decide)

end Attirebackend
